import Mathlib

/-!
Verification development for the Speech-to-Schedule repository.

The definitions below are shallow embeddings of the repository source:
* `src/lib/error-utils.ts` (error normalization and classification),
* the per-route `getCalendarClient` helpers
  (`src/app/api/calendar/update|delete/route.ts` and the variants found in
  the create/list routes),
* `convex/tokens.ts` (token and voice-session storage mutations),
* `src/components/VoiceConsole.tsx` (the realtime session controller).
-/

namespace SpeechSchedule

/-! ## JavaScript value model

The error utilities operate over arbitrary JavaScript values.  `JsVal`
models the value shapes that reach them: `undefined`, `null`, booleans,
numbers (with `NaN` separated), strings, `Error` instances (carrying a
`message`), and plain objects given as association lists of fields.
-/

inductive JsVal where
  | undefV : JsVal
  | nullV : JsVal
  | boolV : Bool → JsVal
  | numV : Int → JsVal
  | nanV : JsVal
  | strV : String → JsVal
  | errV : String → JsVal
  | objV : List (String × JsVal) → JsVal
deriving Repr

/-- JavaScript truthiness: everything except `undefined`, `null`, `false`,
`0`, `NaN` and the empty string is truthy.  Objects (including `Error`
instances) are always truthy. -/
def truthy : JsVal → Bool
  | .undefV => false
  | .nullV => false
  | .boolV b => b
  | .numV n => n != 0
  | .nanV => false
  | .strV s => s != ""
  | .errV _ => true
  | .objV _ => true

/-- `String(x)` conversion for the value shapes in the model. -/
def jsToString : JsVal → String
  | .undefV => "undefined"
  | .nullV => "null"
  | .boolV b => if b then "true" else "false"
  | .numV n => toString n
  | .nanV => "NaN"
  | .strV s => s
  | .errV m => if m = "" then "Error" else "Error: " ++ m
  | .objV _ => "[object Object]"

/-- `JSON.stringify`.  Fields whose value is `undefined` are omitted, as
in JavaScript; `NaN` serializes to `null`; `Error` instances have no
enumerable own properties and serialize to the empty object. -/
def stringifyJs : JsVal → Option String
  | .undefV => none
  | .nullV => some "null"
  | .boolV b => some (if b then "true" else "false")
  | .numV n => some (toString n)
  | .nanV => some "null"
  | .strV s => some ("\"" ++ s ++ "\"")
  | .errV _ => some "\x7b\x7d"
  | .objV fs => some ("\x7b" ++ String.intercalate "," (stringifyFields fs) ++ "\x7d")
where
  stringifyFields : List (String × JsVal) → List String
  | [] => []
  | (k, v) :: rest =>
    match stringifyJs v with
    | none => stringifyFields rest
    | some s => ("\"" ++ k ++ "\":" ++ s) :: stringifyFields rest

/-- Prefix test on character lists. -/
def startsWithChars : List Char → List Char → Bool
  | _, [] => true
  | [], _ :: _ => false
  | c :: cs, p :: ps => c == p && startsWithChars cs ps

/-- Contiguous containment of `pat` in the character list. -/
def containsChars : List Char → List Char → Bool
  | [], pat => pat.isEmpty
  | c :: cs, pat => startsWithChars (c :: cs) pat || containsChars cs pat

/-- `s.includes(pat)`. -/
def jsIncludes (s pat : String) : Bool :=
  containsChars s.toList pat.toList

/-- `s.toLowerCase()` restricted to ASCII, which covers every message the
controller matches on. -/
def lowerStr (s : String) : String :=
  String.mk (s.toList.map Char.toLower)

/-! ## `normalizeErrorMessage` (`src/lib/error-utils.ts`) -/

/-- Field access `o.k` on an association list, yielding `undefined` when
the field is absent. -/
def getField (fs : List (String × JsVal)) (k : String) : JsVal :=
  match fs.lookup k with
  | some v => v
  | none => .undefV

/-- The `typeof err === "object"` branch of `normalizeErrorMessage`:
a truthy `message` field wins, then a truthy `error` field (a string, or
an object with a truthy `message`), then `JSON.stringify` when it does
not produce `"\x7b\x7d"`, and finally `String(err)`. -/
def normalizeObj (fs : List (String × JsVal)) : String :=
  let m := getField fs "message"
  if truthy m then
    match m with
    | .strV s => s
    | other => jsToString other
  else
    let e := getField fs "error"
    if truthy e then
      match e with
      | .strV s => s
      | .objV gs =>
        let nm := getField gs "message"
        if truthy nm then
          match nm with
          | .strV s => s
          | other => jsToString other
        else
          normalizeObjFallback fs
      | .errV em =>
        if em != "" then em else normalizeObjFallback fs
      | _ => normalizeObjFallback fs
    else
      normalizeObjFallback fs
where
  /-- The stringify-then-`String(err)` tail shared by every miss. -/
  normalizeObjFallback (fs : List (String × JsVal)) : String :=
    match stringifyJs (.objV fs) with
    | some out => if out != "\x7b\x7d" then out else "[object Object]"
    | none => "[object Object]"

/-- `normalizeErrorMessage` from `src/lib/error-utils.ts`: falsy inputs
map to `"Unknown error"`, strings are returned as-is, `Error` instances
yield `err.message || "Error occurred"`, objects go through
`normalizeObj`, and everything else through `String(err)`. -/
def normalizeErrorMessage (err : JsVal) : String :=
  if !truthy err then "Unknown error"
  else
    match err with
    | .strV s => s
    | .errV m => if m != "" then m else "Error occurred"
    | .objV fs => normalizeObj fs
    | other => jsToString other

/-! ## `classifyErrorType` (`src/lib/error-utils.ts`) -/

inductive ErrorType where
  | microphone
  | api_key
  | network
  | unknown
deriving Repr, DecidableEq

/-- `classifyErrorType` from `src/lib/error-utils.ts`: keyword families
over the lowercased message, checked in order, with the `getEphemeralToken`
source hint forcing the credential class. -/
def classifyErrorType (errorMessage : String) (source : Option String) : ErrorType :=
  let lm := lowerStr errorMessage
  if jsIncludes lm "api key" || jsIncludes lm "authentication" ||
      jsIncludes lm "unauthorized" || jsIncludes lm "invalid api key" ||
      jsIncludes lm "ephemeral token" || source = some "getEphemeralToken" then
    .api_key
  else if jsIncludes lm "microphone" || jsIncludes lm "audio" ||
      jsIncludes lm "permission denied" || jsIncludes lm "getusermedia" then
    .microphone
  else if jsIncludes lm "network" || jsIncludes lm "webrtc" ||
      jsIncludes lm "connection" || jsIncludes lm "timeout" ||
      jsIncludes lm "fetch" then
    .network
  else
    .unknown

/-! ## `getCalendarClient` (calendar API routes)

The helper is duplicated across the calendar routes in two variants.
`getCalendarClientUpd` embeds the version in
`src/app/api/calendar/update/route.ts` and `delete/route.ts` (handles
invalid-grant by deleting the stored tokens and throwing `TOKEN_INVALID`).
`getCalendarClientCre` embeds the version in the create/list routes
(`src/unnamed/part_002`, `src/unnamed/part_003`), which has no
invalid-grant handling and requires a rotated refresh token.

The remote refresh call is modelled by its outcome, passed in as a value:
either the resolved `credentials` object or the thrown error (with the
fields the catch clause inspects).
-/

/-- The stored token document the route reads from Convex. -/
structure StoredTokens where
  accessToken : String
  refreshToken : String
  expiryTimestamp : Int
deriving Repr, DecidableEq

/-- The `credentials` object resolved by `oauth2Client.refreshAccessToken()`.
`none` models an absent field; `some ""` is a present but falsy string. -/
structure RefreshCredentials where
  access_token : Option String
  refresh_token : Option String
  expiry_date : Option Int
deriving Repr, DecidableEq

/-- Outcome of the remote refresh call: the resolved credentials, or the
thrown error with the fields the catch clause inspects
(`error.message`, `error.code`, `error.response.data.error`). -/
inductive RefreshOutcome where
  | success (credentials : RefreshCredentials)
  | failure (message : String) (code : Option Int) (responseDataError : Option String)
deriving Repr, DecidableEq

/-- Result of one `getCalendarClient` call. `ok` carries the credentials
set on the returned OAuth2 client; the error constructors mirror the
thrown `Error` messages. -/
inductive CalResult where
  | ok (accessToken refreshToken : String)
  | notConnected
  | tokenInvalid
  | failedRefresh
  | otherError (message : String)
deriving Repr, DecidableEq

/-- A call's effect: the stored tokens afterwards, and its result. -/
structure CalOutcome where
  store : Option StoredTokens
  result : CalResult
deriving Repr, DecidableEq

/-- JavaScript `a || b` on an optional string (`some ""` is falsy). -/
def jsOrStr (a : Option String) (b : String) : String :=
  match a with
  | some s => if s != "" then s else b
  | none => b

/-- JavaScript `a || b` on an optional number (`some 0` is falsy). -/
def jsOrInt (a : Option Int) (b : Int) : Int :=
  match a with
  | some n => if n != 0 then n else b
  | none => b

/-- Truthiness of an optional string field (absent or empty is falsy). -/
def truthyStrOpt : Option String → Bool
  | some s => s != ""
  | none => false

/-- The invalid-grant test in the catch clause of the update/delete
variant: `error.message.includes("invalid_grant") || error.code === 400 ||
error.response.data.error === "invalid_grant"`. -/
def isInvalidGrantError (message : String) (code : Option Int)
    (responseDataError : Option String) : Bool :=
  jsIncludes message "invalid_grant" || code = some 400 ||
    responseDataError = some "invalid_grant"

/-- Staleness test shared by every variant:
`tokens.expiryTimestamp - now < 5 * 60 * 1000`. -/
def isStale (tokens : StoredTokens) (now : Int) : Bool :=
  tokens.expiryTimestamp - now < 5 * 60 * 1000

/-- `getCalendarClient` as in `src/app/api/calendar/update/route.ts` and
`src/app/api/calendar/delete/route.ts`.  On a stale token it refreshes;
an absent (or falsy) access token in the response deletes the stored
tokens and fails `TOKEN_INVALID`; an invalid-grant refresh error does the
same; any other refresh error propagates with the store untouched. -/
def getCalendarClientUpd (store : Option StoredTokens) (now : Int)
    (outcome : RefreshOutcome) : CalOutcome :=
  match store with
  | none => ⟨none, .notConnected⟩
  | some tokens =>
    if isStale tokens now then
      match outcome with
      | .success credentials =>
        if !truthyStrOpt credentials.access_token then
          ⟨none, .tokenInvalid⟩
        else
          let newAccess := jsOrStr credentials.access_token ""
          let newRefresh := jsOrStr credentials.refresh_token tokens.refreshToken
          let newExpiry := jsOrInt credentials.expiry_date (now + 3600 * 1000)
          ⟨some ⟨newAccess, newRefresh, newExpiry⟩, .ok newAccess newRefresh⟩
      | .failure message code responseDataError =>
        if isInvalidGrantError message code responseDataError then
          ⟨none, .tokenInvalid⟩
        else
          ⟨some tokens, .otherError message⟩
    else
      ⟨some tokens, .ok tokens.accessToken tokens.refreshToken⟩

/-- `getCalendarClient` as in the create/list routes
(`src/unnamed/part_002`, `src/unnamed/part_003`).  On a stale token it
refreshes; if the response lacks a (truthy) access token **or** a
(truthy) refresh token it throws `Failed to refresh token` without
deleting anything; a refresh error propagates untouched. -/
def getCalendarClientCre (store : Option StoredTokens) (now : Int)
    (outcome : RefreshOutcome) : CalOutcome :=
  match store with
  | none => ⟨none, .notConnected⟩
  | some tokens =>
    if isStale tokens now then
      match outcome with
      | .success credentials =>
        if !truthyStrOpt credentials.access_token ||
            !truthyStrOpt credentials.refresh_token then
          ⟨some tokens, .failedRefresh⟩
        else
          let newAccess := jsOrStr credentials.access_token ""
          let newRefresh := jsOrStr credentials.refresh_token tokens.refreshToken
          let newExpiry := jsOrInt credentials.expiry_date (now + 3600 * 1000)
          ⟨some ⟨newAccess, newRefresh, newExpiry⟩, .ok newAccess newRefresh⟩
      | .failure message _ _ =>
        ⟨some tokens, .otherError message⟩
    else
      ⟨some tokens, .ok tokens.accessToken tokens.refreshToken⟩

/-- The error response a route handler produces for a failed call. -/
structure RouteErrorResponse where
  status : Nat
  message : String
  needsReconnect : Bool
deriving Repr, DecidableEq

/-- Error surfacing in the update/delete route handlers: `TOKEN_INVALID`
becomes a distinct 401 with `needsReconnect: true`; every other thrown
error becomes a generic 500 carrying the error message. -/
def routeSurfaceUpd : CalResult → Option RouteErrorResponse
  | .ok _ _ => none
  | .notConnected =>
    some ⟨500, "Google Calendar not connected", false⟩
  | .tokenInvalid =>
    some ⟨401, "Google Calendar connection expired. Please reconnect.", true⟩
  | .failedRefresh =>
    some ⟨500, "Failed to refresh token", false⟩
  | .otherError message =>
    some ⟨500, message, false⟩

/-! ## Interleaved credential fetches (concurrency of `getCalendarClient`)

Each HTTP request runs its own copy of `getCalendarClient`, with two
suspension points that matter for the refresh race: the store read and
the remote refresh call.  A caller is a little program advancing through
those phases; a schedule interleaves the callers' steps.  The remote
provider is deterministic: every refresh call resolves to the same
`RefreshCredentials`.  The source has no lock or single-flight
coalescing of any kind around the refresh.
-/

/-- Program counter of one in-flight `getCalendarClient` caller. -/
inductive CallerPC where
  | start
  | readDone (snapshot : Option StoredTokens)
  | finished (result : CalResult)
deriving Repr, DecidableEq

/-- Shared store plus a count of remote refresh calls and each caller's
program counter. -/
structure RaceState where
  store : Option StoredTokens
  remoteRefreshCalls : Nat
  callers : List CallerPC
deriving Repr, DecidableEq

/-- Advance caller `i` one step: read the store, then (if the snapshot is
stale) perform the remote refresh — counting it — and upsert the result,
exactly as the success path of `getCalendarClient` does. -/
def raceStep (now : Int) (creds : RefreshCredentials) (sys : RaceState)
    (i : Nat) : RaceState :=
  match sys.callers.get? i with
  | none => sys
  | some .start =>
    { sys with callers := sys.callers.set i (.readDone sys.store) }
  | some (.readDone none) =>
    { sys with callers := sys.callers.set i (.finished .notConnected) }
  | some (.readDone (some tokens)) =>
    if isStale tokens now then
      let newAccess := jsOrStr creds.access_token ""
      let newRefresh := jsOrStr creds.refresh_token tokens.refreshToken
      let newExpiry := jsOrInt creds.expiry_date (now + 3600 * 1000)
      { store := some ⟨newAccess, newRefresh, newExpiry⟩
        remoteRefreshCalls := sys.remoteRefreshCalls + 1
        callers := sys.callers.set i (.finished (.ok newAccess newRefresh)) }
    else
      { sys with callers :=
          sys.callers.set i (.finished (.ok tokens.accessToken tokens.refreshToken)) }
  | some (.finished _) => sys

/-- Run a schedule of caller indices. -/
def raceRun (now : Int) (creds : RefreshCredentials) (schedule : List Nat)
    (sys : RaceState) : RaceState :=
  schedule.foldl (raceStep now creds) sys

/-- A token pair sixty seconds from expiry at `now = 10000000`: stale. -/
def staleTok : StoredTokens := ⟨"oldAccess", "oldRefresh", 10060000⟩

/-- The deterministic remote refresh response used in the race runs. -/
def freshCreds : RefreshCredentials :=
  ⟨some "newAccess", some "newRefresh", some 13600000⟩

/-- Two concurrent callers over a store holding one stale token. -/
def raceInitTwo : RaceState := ⟨some staleTok, 0, [.start, .start]⟩

/-! ## Convex token store (`convex/tokens.ts`) -/

/-- One document of the `googleOAuthTokens` table. -/
structure TokenDoc where
  clerkUserId : String
  accessToken : String
  refreshToken : String
  expiryTimestamp : Int
  createdAt : Int
  updatedAt : Int
deriving Repr, DecidableEq

/-- A table row: document id plus document. -/
structure TokenEntry where
  id : Nat
  doc : TokenDoc
deriving Repr, DecidableEq

/-- Arguments of the `upsertUserTokens` mutation. -/
structure UpsertArgs where
  clerkUserId : String
  accessToken : String
  refreshToken : String
  expiryTimestamp : Int
deriving Repr, DecidableEq

/-- `.withIndex("by_clerk_user_id", ...).first()`: the first row whose
`clerkUserId` matches. -/
def findFirstByUser (db : List TokenEntry) (u : String) : Option TokenEntry :=
  db.find? (fun e => e.doc.clerkUserId == u)

/-- `ctx.db.patch(id, fields)` for the four fields `upsertUserTokens`
patches; rows with a different id are untouched. -/
def patchTokenEntry (args : UpsertArgs) (now : Int) (targetId : Nat)
    (e : TokenEntry) : TokenEntry :=
  if e.id = targetId then
    { e with doc := { e.doc with
        accessToken := args.accessToken
        refreshToken := args.refreshToken
        expiryTimestamp := args.expiryTimestamp
        updatedAt := now } }
  else e

/-- `upsertUserTokens` from `convex/tokens.ts`: patch the existing row
for the user if one exists (returning its id), else insert a new row with
`createdAt = updatedAt = now` (returning the fresh id). -/
def upsertUserTokens (db : List TokenEntry) (freshId : Nat)
    (args : UpsertArgs) (now : Int) : List TokenEntry × Nat :=
  match findFirstByUser db args.clerkUserId with
  | some existing =>
    (db.map (patchTokenEntry args now existing.id), existing.id)
  | none =>
    (db ++ [⟨freshId, ⟨args.clerkUserId, args.accessToken, args.refreshToken,
        args.expiryTimestamp, now, now⟩⟩], freshId)

/-! ## Voice-session persistence (`VoiceConsole.tsx` + `updateVoiceSession`)

The controller keeps `toolCallsCountRef` and the active-session refs, and
persists `toolCallsCount` to the `voiceSessions` record from four places:
the `history_updated` handler (only when the recomputed count grew), the
connect-failure cleanup, `disconnect`, and the unmount cleanup.  The
`updateVoiceSession` mutation writes the count verbatim, so monotonicity
rests entirely on the client-side guards modelled here.
-/

/-- An event in the life of one session that may persist the count. -/
inductive SessionEvent where
  | historyUpdated (functionCallCount : Nat)
  | connectFailureCleanup
  | disconnect
  | unmount
deriving Repr, DecidableEq

/-- The controller refs the persistence paths consult:
`toolCallsCountRef`, `sessionIdRef` (≠ null ↔ `idActive`) and
`sessionRef` (≠ null ↔ `handleActive`). -/
structure ConsoleRefs where
  toolCallsCount : Nat
  idActive : Bool
  handleActive : Bool
deriving Repr, DecidableEq

/-- One event's effect on the refs, together with the `toolCallsCount`
value persisted to the session record by that event, if any. -/
def sessionStep (refs : ConsoleRefs) : SessionEvent → ConsoleRefs × Option Nat
  | .historyUpdated n =>
    if refs.toolCallsCount < n then
      ({ refs with toolCallsCount := n },
        if refs.idActive then some n else none)
    else
      (refs, none)
  | .connectFailureCleanup =>
    (refs, if refs.idActive then some refs.toolCallsCount else none)
  | .disconnect =>
    if refs.handleActive then
      (⟨0, false, false⟩, if refs.idActive then some refs.toolCallsCount else none)
    else
      (refs, none)
  | .unmount =>
    if refs.handleActive && refs.idActive then
      (refs, some refs.toolCallsCount)
    else
      (refs, none)

/-- The sequence of `toolCallsCount` values persisted while processing
the events, in order. -/
def persistedCounts (refs : ConsoleRefs) : List SessionEvent → List Nat
  | [] => []
  | e :: rest =>
    (sessionStep refs e).2.toList ++ persistedCounts (sessionStep refs e).1 rest

/-- Refs at the start of a session: count reset to zero, session id
published, connection handle stored. -/
def sessionStart : ConsoleRefs := ⟨0, true, true⟩

/-! ## Session controller state machine (`VoiceConsole.tsx`) -/

inductive Status where
  | idle
  | connecting
  | connected
  | error
deriving Repr, DecidableEq

/-- The pieces of component state the connection event handlers touch:
`status`, the surfaced error message and type, and the chime flag plus a
count of chime plays (for the exactly-once property). -/
structure ConsoleState where
  status : Status
  errMsg : Option String
  errType : Option ErrorType
  chimePlayed : Bool
  chimeCount : Nat
deriving Repr, DecidableEq

/-- The `"connected"` event handler: advance `connecting → connected`
but leave any other status alone, clear the surfaced error, and play the
chime once guarded by `chimePlayedRef`. -/
def onConnectedEvent (s : ConsoleState) : ConsoleState :=
  let status1 := if s.status = .connecting then .connected else s.status
  if s.chimePlayed then
    { s with status := status1, errMsg := none, errType := none }
  else
    { status := status1
      errMsg := none
      errType := none
      chimePlayed := true
      chimeCount := s.chimeCount + 1 }

/-- The post-`connect()` fallback: advance `connecting → connected`
without clobbering another status, and play the chime only when the
resulting status is `connected` and the flag is still clear. -/
def onConnectResolved (s : ConsoleState) : ConsoleState :=
  let status1 := if s.status = .connecting then .connected else s.status
  if status1 = .connected ∧ s.chimePlayed = false then
    { s with
      status := status1
      chimePlayed := true
      chimeCount := s.chimeCount + 1 }
  else
    { s with status := status1 }

/-- The message-text match the `"error"` handler uses to recognize
teardown artifacts of an intentional disconnect. -/
def teardownArtifactMatch (lowerMessage : String) : Bool :=
  jsIncludes lowerMessage "data channel is not connected" ||
  jsIncludes lowerMessage "webrtc data channel" ||
  (jsIncludes lowerMessage "webrtc" && jsIncludes lowerMessage "not connected")

/-- The contextual rewriting the `"error"` handler applies to common
errors before surfacing them. -/
def contextualizeError (errorMessage lowerMessage : String) : String :=
  if jsIncludes lowerMessage "permission" then
    if jsIncludes lowerMessage "api" || jsIncludes lowerMessage "token" ||
        jsIncludes lowerMessage "authentication" then
      "Permission denied: " ++ errorMessage ++
        ". Please check your OpenAI API key permissions and ensure you have access to the Realtime API."
    else
      "Permission denied: " ++ errorMessage ++
        ". Please grant microphone access in your browser settings."
  else if jsIncludes lowerMessage "network" || jsIncludes lowerMessage "webrtc" then
    "Network error: " ++ errorMessage ++
      ". Please check your internet connection and try again."
  else if jsIncludes lowerMessage "microphone" || jsIncludes lowerMessage "audio" then
    "Audio error: " ++ errorMessage ++
      ". Please ensure your microphone is connected and permissions are granted."
  else
    errorMessage

/-- The `"error"` event handler: normalize the raw error; if the
disconnecting flag is set **and** the lowercased message matches the
teardown-artifact patterns, return with no state change; otherwise
surface the (contextualized) message and classification and transition
to `error`. -/
def onErrorEvent (isDisconnecting : Bool) (s : ConsoleState) (err : JsVal) :
    ConsoleState :=
  let errorMessage := normalizeErrorMessage err
  let et := classifyErrorType errorMessage none
  let lm := lowerStr errorMessage
  if isDisconnecting && teardownArtifactMatch lm then
    s
  else
    { s with
      status := .error
      errMsg := some (contextualizeError errorMessage lm)
      errType := some et }

/-- A readiness observation: the `"connected"` event, or the
post-`connect()` fallback. -/
inductive ReadyObs where
  | viaEvent
  | viaFallback
deriving Repr, DecidableEq

def applyReady (s : ConsoleState) : ReadyObs → ConsoleState
  | .viaEvent => onConnectedEvent s
  | .viaFallback => onConnectResolved s

/-- Component state right after `connect()` has started a session:
status `connecting`, no error, chime not yet played. -/
def connectingInit : ConsoleState := ⟨.connecting, none, none, false, 0⟩

/-! ## `connect()` / `disconnect()` interleaving (`VoiceConsole.tsx`)

`connect()` is a long async function; `disconnect()` may run at any of
its suspension points.  The decisive fact is that the entire body of
`disconnect()` is guarded by `if (sessionRef.current)`, and `connect()`
assigns `sessionRef.current` only *after* `await session.connect(...)`
resolves.  `connectPhases` lists the successful path's atomic phases;
`interleaveDisconnectAt k` runs `disconnect` after `k` of them.
-/

/-- Controller state for the interleaving model. -/
structure SessionCtl where
  status : Status
  sessionHandle : Option Nat
  sessionId : Option Nat
  isDisconnecting : Bool
deriving Repr, DecidableEq

/-- `setStatus("connecting")` at the top of `connect()`. -/
def phaseSetConnecting (s : SessionCtl) : SessionCtl :=
  { s with status := .connecting }

/-- Session creation: publish the session id, clear the flags. -/
def phaseInitSession (s : SessionCtl) : SessionCtl :=
  { s with sessionId := some 1, isDisconnecting := false }

/-- `await session.connect(...)` resolved: the guarded fallback status
update. -/
def phaseResolveStatus (s : SessionCtl) : SessionCtl :=
  { s with status := if s.status = .connecting then .connected else s.status }

/-- `sessionRef.current = session`, the line after the fallback. -/
def phaseStoreHandle (s : SessionCtl) : SessionCtl :=
  { s with sessionHandle := some 1 }

/-- `disconnect()`: a no-op unless a connection handle is stored;
otherwise set the disconnecting flag, close and clear the handle, end
the session record, clear the session id and reset to `idle`. -/
def disconnectCtl (s : SessionCtl) : SessionCtl :=
  match s.sessionHandle with
  | some _ => ⟨.idle, none, none, true⟩
  | none => s

/-- The atomic phases of a successful `connect()`, in program order. -/
def connectPhases : List (SessionCtl → SessionCtl) :=
  [phaseSetConnecting, phaseInitSession, phaseResolveStatus, phaseStoreHandle]

def runCtl (steps : List (SessionCtl → SessionCtl)) (s : SessionCtl) : SessionCtl :=
  steps.foldl (fun st f => f st) s

/-- Run `connect()` with one `disconnect()` interleaved after its first
`k` phases (`k = 4` means after `connect()` completed). -/
def interleaveDisconnectAt (k : Nat) : SessionCtl :=
  runCtl (connectPhases.take k ++ [disconnectCtl] ++ connectPhases.drop k)
    ⟨.idle, none, none, false⟩

/-! ## Claim C1 — single-flight refresh -/

/-- Claim C1.  The credential helper has no single-flight coalescing: with one
stale stored token, two concurrent `getCalendarClient` callers that both
read the store before either refresh completes issue **two** remote
refresh calls, while the same two callers run back-to-back issue one.
The interleaving `[0, 1, 0, 1]` is the failing input for the claimed
"exactly one remote refresh call". -/
theorem c1_refresh_race_two_calls :
    isStale staleTok 10000000 = true ∧
    (raceRun 10000000 freshCreds [0, 1, 0, 1] raceInitTwo).remoteRefreshCalls = 2 ∧
    (raceRun 10000000 freshCreds [0, 0, 1, 1] raceInitTwo).remoteRefreshCalls = 1 :=
  ⟨rfl, rfl, rfl⟩

/-! ## Claim C2 — eviction on invalid grant / missing access token -/

/-- Claim C2 counterexample.  (a) In the create/list-route variant of
`getCalendarClient`, a refresh response lacking an access token leaves
the stored TokenRecord in place (and fails generically), so "for every
calendar operation … the stored TokenRecord … is absent afterward" is
false.  (b) After the update/delete variant has evicted the record, a
subsequent credential request fails as not-connected and is surfaced as
a generic 500 without `needsReconnect`, not as the ReauthRequired
condition. -/
theorem c2_counterexample :
    (getCalendarClientCre (some staleTok) 10000000
        (.success ⟨none, some "rotatedRefresh", some 13600000⟩)).store = some staleTok ∧
    (getCalendarClientCre (some staleTok) 10000000
        (.success ⟨none, some "rotatedRefresh", some 13600000⟩)).result = .failedRefresh ∧
    (getCalendarClientUpd none 10000000
        (.success ⟨some "newAccess", some "newRefresh", none⟩)).result = .notConnected ∧
    routeSurfaceUpd .notConnected = some ⟨500, "Google Calendar not connected", false⟩ :=
  ⟨rfl, rfl, rfl, rfl⟩

/-- Claim C2 amended.  In the update/delete-route variant of
`getCalendarClient`: a refresh response without a truthy access token,
or a refresh error matching the invalid-grant test, deletes the stored
TokenRecord and fails `TOKEN_INVALID`, which the route surfaces
distinctly as a 401 with `needsReconnect`; a subsequent credential
request for that user then fails with the not-connected condition
(`Google Calendar not connected`), not ReauthRequired. -/
theorem c2_amended_eviction (tokens : StoredTokens) (now : Int)
    (creds : RefreshCredentials) (msg : String) (code : Option Int)
    (rde : Option String) (hstale : isStale tokens now = true) :
    (truthyStrOpt creds.access_token = false →
      getCalendarClientUpd (some tokens) now (.success creds) = ⟨none, .tokenInvalid⟩) ∧
    (isInvalidGrantError msg code rde = true →
      getCalendarClientUpd (some tokens) now (.failure msg code rde) = ⟨none, .tokenInvalid⟩) ∧
    routeSurfaceUpd .tokenInvalid =
      some ⟨401, "Google Calendar connection expired. Please reconnect.", true⟩ ∧
    (∀ outcome2, (getCalendarClientUpd none now outcome2).result = .notConnected) := by
  refine ⟨?_, ?_, rfl, fun _ => rfl⟩
  · intro hat
    simp [getCalendarClientUpd, hstale, hat]
  · intro hig
    simp [getCalendarClientUpd, hstale, hig]

/-- Claim C2 witness: the amended theorem at a concrete stale token, a refresh
response with no access token, and an explicit invalid-grant error. -/
theorem c2_amended_eviction_witness :
    (truthyStrOpt (RefreshCredentials.mk none (some "r2") none).access_token = false →
      getCalendarClientUpd (some staleTok) 10000000
        (.success ⟨none, some "r2", none⟩) = ⟨none, .tokenInvalid⟩) ∧
    (isInvalidGrantError "invalid_grant: token revoked" none none = true →
      getCalendarClientUpd (some staleTok) 10000000
        (.failure "invalid_grant: token revoked" none none) = ⟨none, .tokenInvalid⟩) ∧
    routeSurfaceUpd .tokenInvalid =
      some ⟨401, "Google Calendar connection expired. Please reconnect.", true⟩ ∧
    (∀ outcome2, (getCalendarClientUpd none 10000000 outcome2).result = .notConnected) :=
  c2_amended_eviction staleTok 10000000 ⟨none, some "r2", none⟩
    "invalid_grant: token revoked" none none rfl

/-! ## Claim C3 — refresh without rotation -/

/-- Claim C3 counterexample.  In the create/list-route variant of
`getCalendarClient` (cited by the claim), a refresh that succeeds with a
new access token but no rotated refresh token makes the call **fail**
with `Failed to refresh token` and persists nothing, so "the credential
fetch succeeds … rather than the call failing" is false there. -/
theorem c3_counterexample :
    getCalendarClientCre (some staleTok) 10000000
      (.success ⟨some "newAccess", none, some 13600000⟩) =
      ⟨some staleTok, .failedRefresh⟩ :=
  rfl

/-- Claim C3 amended.  For a stale token whose refresh succeeds with a truthy
access token but no rotated refresh token: in the update/delete-route
variant the fetch succeeds, persisting the new access token and expiry
and retaining the prior refresh token, and returns the refreshed
credential; the create/list-route variant instead rejects the response
with `Failed to refresh token` and leaves the store unchanged. -/
theorem c3_amended_refresh_without_rotation (tokens : StoredTokens)
    (now : Int) (newA : String) (newE : Int)
    (hstale : isStale tokens now = true) (ha : newA ≠ "") (he : newE ≠ 0) :
    getCalendarClientUpd (some tokens) now (.success ⟨some newA, none, some newE⟩) =
      ⟨some ⟨newA, tokens.refreshToken, newE⟩, .ok newA tokens.refreshToken⟩ ∧
    getCalendarClientCre (some tokens) now (.success ⟨some newA, none, some newE⟩) =
      ⟨some tokens, .failedRefresh⟩ := by
  constructor
  · simp [getCalendarClientUpd, hstale, truthyStrOpt, jsOrStr, jsOrInt, ha, he]
  · simp [getCalendarClientCre, hstale, truthyStrOpt]

/-- Claim C3 witness: the amended theorem at a concrete stale token and a
concrete unrotated refresh response. -/
theorem c3_amended_refresh_without_rotation_witness :
    getCalendarClientUpd (some staleTok) 10000000
      (.success ⟨some "newAccess", none, some 13600000⟩) =
      ⟨some ⟨"newAccess", staleTok.refreshToken, 13600000⟩,
        .ok "newAccess" staleTok.refreshToken⟩ ∧
    getCalendarClientCre (some staleTok) 10000000
      (.success ⟨some "newAccess", none, some 13600000⟩) =
      ⟨some staleTok, .failedRefresh⟩ :=
  c3_amended_refresh_without_rotation staleTok 10000000 "newAccess" 13600000
    rfl (by decide) (by decide)

/-! ## Claim C4 — error suppression during teardown -/

/-- Claim C4 counterexample.  An error event delivered after teardown has
begun (disconnecting flag set) whose message does **not** match the
WebRTC data-channel patterns is not suppressed: the state transitions to
`error` and the message is surfaced.  The claim's "for every connection
error event delivered after teardown has begun … the error is
suppressed" is therefore false. -/
theorem c4_counterexample :
    onErrorEvent true ⟨.idle, none, none, false, 0⟩ (.strV "unexpected failure") =
      ⟨.error, some "unexpected failure", some .unknown, false, 0⟩ :=
  rfl

/-- Claim C4 amended.  After teardown has begun, an error event is suppressed
(state unchanged, nothing surfaced) exactly when its normalized,
lowercased message matches the teardown-artifact text patterns; an error
event whose message does not match — and every error event delivered
before teardown begins — is surfaced with its classification and
transitions the state to `error`. -/
theorem c4_amended_suppression (d : Bool) (s : ConsoleState) (err : JsVal) :
    (d = true → teardownArtifactMatch (lowerStr (normalizeErrorMessage err)) = true →
      onErrorEvent d s err = s) ∧
    (teardownArtifactMatch (lowerStr (normalizeErrorMessage err)) = false →
      (onErrorEvent d s err).status = .error ∧
      (onErrorEvent d s err).errMsg =
        some (contextualizeError (normalizeErrorMessage err)
          (lowerStr (normalizeErrorMessage err))) ∧
      (onErrorEvent d s err).errType =
        some (classifyErrorType (normalizeErrorMessage err) none)) ∧
    (d = false →
      (onErrorEvent d s err).status = .error ∧
      (onErrorEvent d s err).errMsg =
        some (contextualizeError (normalizeErrorMessage err)
          (lowerStr (normalizeErrorMessage err)))) := by
  refine ⟨fun hd hm => ?_, fun hm => ?_, fun hd => ?_⟩
  · simp [onErrorEvent, hd, hm]
  · simp [onErrorEvent, hm]
  · simp [onErrorEvent, hd]

/-- Claim C4 witness: the amended theorem at a matching teardown artifact, a
non-matching message after teardown, and a message before teardown. -/
theorem c4_amended_suppression_witness :
    (true = true →
      teardownArtifactMatch
        (lowerStr (normalizeErrorMessage (.strV "WebRTC data channel is not connected"))) = true →
      onErrorEvent true ⟨.idle, none, none, false, 0⟩
        (.strV "WebRTC data channel is not connected") = ⟨.idle, none, none, false, 0⟩) ∧
    (teardownArtifactMatch (lowerStr (normalizeErrorMessage (.strV "boom"))) = false →
      (onErrorEvent true ⟨.idle, none, none, false, 0⟩ (.strV "boom")).status = .error ∧
      (onErrorEvent true ⟨.idle, none, none, false, 0⟩ (.strV "boom")).errMsg =
        some (contextualizeError (normalizeErrorMessage (.strV "boom"))
          (lowerStr (normalizeErrorMessage (.strV "boom")))) ∧
      (onErrorEvent true ⟨.idle, none, none, false, 0⟩ (.strV "boom")).errType =
        some (classifyErrorType (normalizeErrorMessage (.strV "boom")) none)) ∧
    (false = false →
      (onErrorEvent false ⟨.connected, none, none, true, 1⟩ (.strV "boom")).status = .error ∧
      (onErrorEvent false ⟨.connected, none, none, true, 1⟩ (.strV "boom")).errMsg =
        some (contextualizeError (normalizeErrorMessage (.strV "boom"))
          (lowerStr (normalizeErrorMessage (.strV "boom"))))) :=
  ⟨(c4_amended_suppression true ⟨.idle, none, none, false, 0⟩
      (.strV "WebRTC data channel is not connected")).1,
    (c4_amended_suppression true ⟨.idle, none, none, false, 0⟩ (.strV "boom")).2.1,
    fun _ => (c4_amended_suppression false ⟨.connected, none, none, true, 1⟩
      (.strV "boom")).2.2 rfl⟩

/-! ## Claim C5 — disconnect during an in-progress connect -/

/-- Claim C5 counterexample.  `disconnect()` interleaved while `connect()` is
awaiting the transport (before `sessionRef.current` is assigned) is a
no-op — its whole body is guarded by `if (sessionRef.current)` — so once
both complete the controller is `connected` with an open connection
handle, contradicting "once both complete the controller state is idle
and no connection handle remains open". -/
theorem c5_counterexample :
    interleaveDisconnectAt 2 = ⟨.connected, some 1, some 1, false⟩ ∧
    (interleaveDisconnectAt 2).status ≠ .idle ∧
    (interleaveDisconnectAt 2).sessionHandle ≠ none :=
  ⟨rfl, by decide, by decide⟩

/-- Claim C5 amended.  A `disconnect()` interleaved anywhere before
`connect()` stores the connection handle is a no-op and the session ends
`connected` with the handle open; only a `disconnect()` that runs after
`connect()` has completed tears the session down to `idle` with no open
connection. -/
theorem c5_amended_interleaving (k : Fin 5) :
    interleaveDisconnectAt k =
      if (k : Nat) = 4 then ⟨.idle, none, none, true⟩
      else ⟨.connected, some 1, some 1, false⟩ := by
  revert k
  decide

/-! ## Claim C6 — ready signal never clobbers an advanced state -/

/-- Claim C6.  The `"connected"` event handler moves the status to `connected`
exactly when the current status is `connecting` (or already
`connected`); any other status — in particular `error` — is left
unchanged by the ready signal. -/
theorem c6_ready_no_clobber (s : ConsoleState) :
    ((onConnectedEvent s).status = .connected ↔
      (s.status = .connecting ∨ s.status = .connected)) ∧
    (s.status ≠ .connecting → (onConnectedEvent s).status = s.status) := by
  cases hc : s.chimePlayed <;>
    cases hs : s.status <;>
      simp [onConnectedEvent, hs, hc]

/-- Claim C6 witness: the ready signal advances a `connecting` session and
leaves an `error` session untouched. -/
theorem c6_ready_no_clobber_witness :
    (onConnectedEvent ⟨.connecting, none, none, false, 0⟩).status = .connected ∧
    (onConnectedEvent ⟨.error, some "boom", some .unknown, false, 0⟩).status = .error :=
  ⟨(c6_ready_no_clobber ⟨.connecting, none, none, false, 0⟩).1.mpr (Or.inl rfl),
    (c6_ready_no_clobber ⟨.error, some "boom", some .unknown, false, 0⟩).2 (by decide)⟩

/-! ## Claim C7 — persisted tool-call counts are monotone -/

/-- Once the session id ref is cleared, no persistence path writes again
(every write site is guarded by the session id, and nothing re-activates
it within one session). -/
theorem persistedCounts_inactive :
    ∀ (events : List SessionEvent) (refs : ConsoleRefs),
      refs.idActive = false → persistedCounts refs events = [] := by
  intro events
  induction events with
  | nil => intro refs _; rfl
  | cons e rest ih =>
    rintro ⟨cnt, idA, hA⟩ h
    cases h
    cases e with
    | historyUpdated n =>
      by_cases hlt : cnt < n
      · simpa [persistedCounts, sessionStep, hlt] using ih _ rfl
      · simpa [persistedCounts, sessionStep, hlt] using ih _ rfl
    | connectFailureCleanup =>
      simpa [persistedCounts, sessionStep] using ih _ rfl
    | disconnect =>
      cases hA <;>
        simpa [persistedCounts, sessionStep] using ih _ rfl
    | unmount =>
      simpa [persistedCounts, sessionStep] using ih _ rfl

/-- Every count persisted from `refs` onward is at least the current
`toolCallsCountRef` value, and the persisted sequence is chainwise
non-decreasing. -/
theorem persistedCounts_mono_aux :
    ∀ (events : List SessionEvent) (refs : ConsoleRefs),
      (∀ w ∈ persistedCounts refs events, refs.toolCallsCount ≤ w) ∧
      List.Chain' (· ≤ ·) (persistedCounts refs events) := by
  intro events
  induction events with
  | nil => intro refs; simp [persistedCounts]
  | cons e rest ih =>
    rintro ⟨cnt, idA, hA⟩
    cases e with
    | historyUpdated n =>
      by_cases hlt : cnt < n
      · have ihn := ih ⟨n, idA, hA⟩
        cases idA
        · constructor
          · intro w hw
            simp [persistedCounts, sessionStep, hlt] at hw
            exact (Nat.le_of_lt hlt).trans (ihn.1 w hw)
          · simpa [persistedCounts, sessionStep, hlt] using ihn.2
        · constructor
          · intro w hw
            simp [persistedCounts, sessionStep, hlt] at hw
            rcases hw with rfl | hw
            · exact Nat.le_of_lt hlt
            · exact (Nat.le_of_lt hlt).trans (ihn.1 w hw)
          · simp only [persistedCounts, sessionStep, hlt, if_pos, if_true,
              Option.toList_some, List.singleton_append]
            exact List.chain'_cons'.mpr
              ⟨fun y hy => ihn.1 y (List.mem_of_mem_head? hy), ihn.2⟩
      · have ihr := ih ⟨cnt, idA, hA⟩
        constructor
        · intro w hw
          simp [persistedCounts, sessionStep, hlt] at hw
          exact ihr.1 w hw
        · simpa [persistedCounts, sessionStep, hlt] using ihr.2
    | connectFailureCleanup =>
      have ihr := ih ⟨cnt, idA, hA⟩
      cases idA
      · constructor
        · intro w hw
          simp [persistedCounts, sessionStep] at hw
          exact ihr.1 w hw
        · simpa [persistedCounts, sessionStep] using ihr.2
      · constructor
        · intro w hw
          simp [persistedCounts, sessionStep] at hw
          rcases hw with rfl | hw
          · exact Nat.le_refl _
          · exact ihr.1 w hw
        · simp only [persistedCounts, sessionStep, if_true,
            Option.toList_some, List.singleton_append]
          exact List.chain'_cons'.mpr
            ⟨fun y hy => ihr.1 y (List.mem_of_mem_head? hy), ihr.2⟩
    | disconnect =>
      cases hA
      · have ihr := ih ⟨cnt, idA, false⟩
        constructor
        · intro w hw
          simp [persistedCounts, sessionStep] at hw
          exact ihr.1 w hw
        · simpa [persistedCounts, sessionStep] using ihr.2
      · have hrest : persistedCounts (⟨0, false, false⟩ : ConsoleRefs) rest = [] :=
          persistedCounts_inactive rest _ rfl
        cases idA <;>
          simp [persistedCounts, sessionStep, hrest]
    | unmount =>
      have ihr := ih ⟨cnt, idA, hA⟩
      cases hA <;> cases idA
      all_goals
        first
        | (constructor
           · intro w hw
             simp [persistedCounts, sessionStep] at hw
             rcases hw with rfl | hw
             · exact Nat.le_refl _
             · exact ihr.1 w hw
           · simp only [persistedCounts, sessionStep, Bool.and_self, if_true,
               Option.toList_some, List.singleton_append]
             exact List.chain'_cons'.mpr
               ⟨fun y hy => ihr.1 y (List.mem_of_mem_head? hy), ihr.2⟩)
        | (constructor
           · intro w hw
             simp [persistedCounts, sessionStep] at hw
             exact ihr.1 w hw
           · simpa [persistedCounts, sessionStep] using ihr.2)

/-- Claim C7.  Over the life of one session — any sequence of history events,
connect-failure cleanup, disconnect and unmount — the `toolCallsCount`
values persisted to the VoiceSessionRecord form a pairwise non-decreasing
sequence: every write is at least every earlier write. -/
theorem c7_toolCallsCount_monotone (events : List SessionEvent) :
    List.Pairwise (· ≤ ·) (persistedCounts sessionStart events) :=
  List.chain'_iff_pairwise.mp (persistedCounts_mono_aux events sessionStart).2

/-! ## Claim C8 — the readiness chime plays exactly once -/

/-- Once the session is `connected` and the chime flag is set, further
readiness observations — by either path — leave the chime count, the
flag and the status unchanged. -/
theorem applyReady_stable :
    ∀ (obs : List ReadyObs) (s : ConsoleState), s.status = .connected →
      s.chimePlayed = true →
      (obs.foldl applyReady s).chimeCount = s.chimeCount ∧
      (obs.foldl applyReady s).status = .connected ∧
      (obs.foldl applyReady s).chimePlayed = true := by
  intro obs
  induction obs with
  | nil => intro s h1 h2; exact ⟨rfl, h1, h2⟩
  | cons o rest ih =>
    intro s h1 h2
    have hstep : (applyReady s o).chimeCount = s.chimeCount ∧
        (applyReady s o).status = .connected ∧
        (applyReady s o).chimePlayed = true := by
      cases o <;> simp [applyReady, onConnectedEvent, onConnectResolved, h1, h2]
    have hrest := ih (applyReady s o) hstep.2.1 hstep.2.2
    exact ⟨hrest.1.trans hstep.1, hrest.2.1, hrest.2.2⟩

/-- Claim C8.  In a session whose `connect()` succeeds, any non-empty sequence
of readiness observations — the `"connected"` event and/or the
post-`connect()` fallback, in any combination, including the signal
being observed twice — plays the chime exactly once, and the chime flag
stays set afterwards. -/
theorem c8_chime_exactly_once (obs : List ReadyObs) (h : obs ≠ []) :
    ((obs.foldl applyReady connectingInit).chimeCount = 1 ∧
      (obs.foldl applyReady connectingInit).chimePlayed = true) := by
  match obs with
  | o :: rest =>
    have h1 : applyReady connectingInit o = ⟨.connected, none, none, true, 1⟩ := by
      cases o <;> rfl
    have hrest := applyReady_stable rest ⟨.connected, none, none, true, 1⟩ rfl rfl
    simpa [List.foldl, h1] using ⟨hrest.1, hrest.2.2⟩

/-- Claim C8 witness: the ready signal observed twice — once via the event
handler and once via the `connect()` fallback — still plays one chime. -/
theorem c8_chime_exactly_once_witness :
    (([ReadyObs.viaEvent, ReadyObs.viaFallback]).foldl applyReady
        connectingInit).chimeCount = 1 ∧
    (([ReadyObs.viaEvent, ReadyObs.viaFallback]).foldl applyReady
        connectingInit).chimePlayed = true :=
  c8_chime_exactly_once [ReadyObs.viaEvent, ReadyObs.viaFallback] (by simp)

/-! ## Claim C9 — `normalizeErrorMessage` -/

/-- Claim C9 counterexample.  The empty string is a present input value
(neither `undefined` nor `null`), yet `normalizeErrorMessage` returns
the literal `"Unknown error"` for it, because the guard is JavaScript
falsiness (`if (!err)`), not absence. -/
theorem c9_counterexample :
    normalizeErrorMessage (JsVal.strV "") = "Unknown error" ∧
    JsVal.strV "" ≠ JsVal.undefV ∧ JsVal.strV "" ≠ JsVal.nullV :=
  ⟨rfl, fun h => JsVal.noConfusion h, fun h => JsVal.noConfusion h⟩

/-- Claim C9 amended.  `normalizeErrorMessage` is total (it is a function into
`String`); it returns non-empty strings as-is, an `Error` instance's
non-empty message (with `"Error occurred"` for an empty one), a truthy
string `message` field, the `message` of a nested `\x7berror: \x7bmessage\x7d\x7d`
wrapper, and the JSON serialization of an opaque object with no message;
and it returns the literal `"Unknown error"` for every **falsy** input —
absent (`undefined`/`null`) or present-but-falsy such as `""`, `0`,
`false` or `NaN` — not only when the input is absent entirely. -/
theorem c9_amended_normalize :
    (∀ err, truthy err = false → normalizeErrorMessage err = "Unknown error") ∧
    (∀ s, s ≠ "" → normalizeErrorMessage (.strV s) = s) ∧
    (∀ m, m ≠ "" → normalizeErrorMessage (.errV m) = m) ∧
    (normalizeErrorMessage (.errV "") = "Error occurred") ∧
    (∀ fs m, getField fs "message" = .strV m → m ≠ "" →
      normalizeErrorMessage (.objV fs) = m) ∧
    (∀ fs gs m, getField fs "message" = .undefV → getField fs "error" = .objV gs →
      getField gs "message" = .strV m → m ≠ "" →
      normalizeErrorMessage (.objV fs) = m) ∧
    (∀ fs out, getField fs "message" = .undefV → getField fs "error" = .undefV →
      stringifyJs (.objV fs) = some out → out ≠ "\x7b\x7d" →
      normalizeErrorMessage (.objV fs) = out) := by
  refine ⟨?_, ?_, ?_, rfl, ?_, ?_, ?_⟩
  · intro err h
    simp [normalizeErrorMessage, h]
  · intro s hs
    simp [normalizeErrorMessage, truthy, hs]
  · intro m hm
    simp [normalizeErrorMessage, truthy, hm]
  · intro fs m h1 hm
    simp [normalizeErrorMessage, truthy, normalizeObj, h1, hm]
  · intro fs gs m h1 h2 h3 hm
    simp [normalizeErrorMessage, truthy, normalizeObj, h1, h2, h3, hm]
  · intro fs out h1 h2 h3 hout
    simp [normalizeErrorMessage, truthy, normalizeObj,
      normalizeObj.normalizeObjFallback, h1, h2, h3, hout]

/-- Claim C9 witness: the amended clauses at concrete inputs — a falsy
`false`, a plain string, an `Error`, a `message` field, a nested
`error.message` wrapper, and an opaque object serialized to JSON. -/
theorem c9_amended_normalize_witness :
    normalizeErrorMessage (JsVal.boolV false) = "Unknown error" ∧
    normalizeErrorMessage (.strV "boom") = "boom" ∧
    normalizeErrorMessage (.errV "kaput") = "kaput" ∧
    normalizeErrorMessage (.objV [("message", .strV "inner")]) = "inner" ∧
    normalizeErrorMessage (.objV [("error", .objV [("message", .strV "deep")])]) = "deep" ∧
    normalizeErrorMessage (.objV [("code", .numV 7)]) = "\x7b\"code\":7\x7d" :=
  ⟨c9_amended_normalize.1 (JsVal.boolV false) rfl,
    c9_amended_normalize.2.1 "boom" (by decide),
    c9_amended_normalize.2.2.1 "kaput" (by decide),
    c9_amended_normalize.2.2.2.2.1 [("message", .strV "inner")] "inner" rfl (by decide),
    c9_amended_normalize.2.2.2.2.2.1 [("error", .objV [("message", .strV "deep")])]
      [("message", .strV "deep")] "deep" rfl rfl rfl (by decide),
    c9_amended_normalize.2.2.2.2.2.2 [("code", .numV 7)] "\x7b\"code\":7\x7d"
      rfl rfl rfl (by decide)⟩

/-! ## Claim C10 — `upsertUserTokens` patches in place -/

/-- Claim C10.  When a TokenRecord already exists for the user,
`upsertUserTokens` returns the existing record's id, creates no second
record (the table keeps its length), leaves every other record
untouched, and the user's record afterwards has the new `accessToken`,
`refreshToken`, `expiryTimestamp` and `updatedAt` while keeping its
original `clerkUserId` and `createdAt`. -/
theorem c10_upsert_existing_patches_in_place (db : List TokenEntry)
    (freshId : Nat) (args : UpsertArgs) (now : Int) (existing : TokenEntry)
    (hfind : findFirstByUser db args.clerkUserId = some existing) :
    (upsertUserTokens db freshId args now).2 = existing.id ∧
    (upsertUserTokens db freshId args now).1.length = db.length ∧
    (∀ e ∈ db, e.id ≠ existing.id → e ∈ (upsertUserTokens db freshId args now).1) ∧
    (∃ e2 ∈ (upsertUserTokens db freshId args now).1,
      e2.id = existing.id ∧
      e2.doc.clerkUserId = existing.doc.clerkUserId ∧
      e2.doc.createdAt = existing.doc.createdAt ∧
      e2.doc.accessToken = args.accessToken ∧
      e2.doc.refreshToken = args.refreshToken ∧
      e2.doc.expiryTimestamp = args.expiryTimestamp ∧
      e2.doc.updatedAt = now) := by
  have hmem : existing ∈ db := List.mem_of_find?_eq_some hfind
  refine ⟨?_, ?_, ?_, ?_⟩
  · simp [upsertUserTokens, hfind]
  · simp [upsertUserTokens, hfind]
  · intro e he hne
    simp only [upsertUserTokens, hfind, List.mem_map]
    exact ⟨e, he, by simp [patchTokenEntry, hne]⟩
  · refine ⟨patchTokenEntry args now existing.id existing, ?_, ?_⟩
    · simp only [upsertUserTokens, hfind, List.mem_map]
      exact ⟨existing, hmem, rfl⟩
    · simp [patchTokenEntry]

/-- Claim C10 witness: a one-row table for user `"u"`, patched in place. -/
theorem c10_upsert_existing_witness :
    (upsertUserTokens [⟨0, ⟨"u", "a", "r", 5, 10, 10⟩⟩] 7 ⟨"u", "a2", "r2", 99⟩ 20).2 =
      (TokenEntry.mk 0 ⟨"u", "a", "r", 5, 10, 10⟩).id ∧
    (upsertUserTokens [⟨0, ⟨"u", "a", "r", 5, 10, 10⟩⟩] 7 ⟨"u", "a2", "r2", 99⟩ 20).1.length =
      [TokenEntry.mk 0 ⟨"u", "a", "r", 5, 10, 10⟩].length ∧
    (∀ e ∈ [TokenEntry.mk 0 ⟨"u", "a", "r", 5, 10, 10⟩],
      e.id ≠ (TokenEntry.mk 0 ⟨"u", "a", "r", 5, 10, 10⟩).id →
      e ∈ (upsertUserTokens [⟨0, ⟨"u", "a", "r", 5, 10, 10⟩⟩] 7 ⟨"u", "a2", "r2", 99⟩ 20).1) ∧
    (∃ e2 ∈ (upsertUserTokens [⟨0, ⟨"u", "a", "r", 5, 10, 10⟩⟩] 7 ⟨"u", "a2", "r2", 99⟩ 20).1,
      e2.id = (TokenEntry.mk 0 ⟨"u", "a", "r", 5, 10, 10⟩).id ∧
      e2.doc.clerkUserId = (TokenEntry.mk 0 ⟨"u", "a", "r", 5, 10, 10⟩).doc.clerkUserId ∧
      e2.doc.createdAt = (TokenEntry.mk 0 ⟨"u", "a", "r", 5, 10, 10⟩).doc.createdAt ∧
      e2.doc.accessToken = (UpsertArgs.mk "u" "a2" "r2" 99).accessToken ∧
      e2.doc.refreshToken = (UpsertArgs.mk "u" "a2" "r2" 99).refreshToken ∧
      e2.doc.expiryTimestamp = (UpsertArgs.mk "u" "a2" "r2" 99).expiryTimestamp ∧
      e2.doc.updatedAt = 20) :=
  c10_upsert_existing_patches_in_place [⟨0, ⟨"u", "a", "r", 5, 10, 10⟩⟩] 7
    ⟨"u", "a2", "r2", 99⟩ 20 ⟨0, ⟨"u", "a", "r", 5, 10, 10⟩⟩ rfl

end SpeechSchedule
